import Mathlib

/-!
Verification development for the bytebase task-check store
(`store/task_check_run.go`) and the SQL task executor
(`server/task_executor_sql.go`).

The Go store functions are embedded shallowly: the `task_check_run` table
becomes a list of rows inside a `Store`, SQL WHERE clauses become the very
clause lists the Go code builds, transactions become explicit state passing
(a rollback returns the pre-call state), and a Go panic or scan failure
becomes `none` / `Except.error`.
-/

/-- Status of a task check run: RUNNING, DONE or FAILED. -/
inductive TaskCheckRunStatus
  | running
  | done
  | failed
  deriving DecidableEq

/-- A row of the `task_check_run` table (api.TaskCheckRun). -/
structure TaskCheckRun where
  id : Nat
  creatorId : Nat
  createdTs : Int
  updaterId : Nat
  updatedTs : Int
  taskId : Nat
  name : String
  status : TaskCheckRunStatus
  type : String
  comment : String
  result : String
  payload : String
  deriving DecidableEq

/-- api.TaskCheckRunFind: optional filter fields, nil imposes no constraint.
Only the fields read by `findTaskCheckRunList` are modelled. -/
structure TaskCheckRunFind where
  id : Option Nat
  taskId : Option Nat
  statusList : Option (List TaskCheckRunStatus)
  deriving DecidableEq

/-- api.TaskCheckRunCreate, the argument of `CreateTaskCheckRunIfNeeded`. -/
structure TaskCheckRunCreate where
  creatorId : Nat
  taskId : Nat
  name : String
  type : String
  comment : String
  payload : String
  skipIfAlreadyDone : Bool
  deriving DecidableEq

/-- api.TaskCheckRunStatusPatch, the argument of `PatchTaskCheckRunStatusTx`. -/
structure TaskCheckRunStatusPatch where
  id : Option Nat
  updaterId : Nat
  status : TaskCheckRunStatus
  comment : String
  result : String
  deriving DecidableEq

/-- The `task_check_run` table together with the auto-increment counter. -/
structure Store where
  runs : List TaskCheckRun
  nextId : Nat
  deriving DecidableEq

/-- The WHERE clause list built by `findTaskCheckRunList`: it starts from
`1 = 1` and appends one clause per non-nil filter field; the status clause
is the SQL membership test `status IN (...)`. -/
def whereClauses (find : TaskCheckRunFind) : List (TaskCheckRun → Bool) :=
  let w0 : List (TaskCheckRun → Bool) := [fun _ => true]
  let w1 : List (TaskCheckRun → Bool) :=
    match find.id with
    | some i => w0 ++ [fun (r : TaskCheckRun) => r.id == i]
    | none => w0
  let w2 : List (TaskCheckRun → Bool) :=
    match find.taskId with
    | some t => w1 ++ [fun (r : TaskCheckRun) => r.taskId == t]
    | none => w1
  match find.statusList with
  | some sl => w2 ++ [fun (r : TaskCheckRun) => sl.contains r.status]
  | none => w2

/-- `findTaskCheckRunList`: SELECT the rows satisfying every WHERE clause,
in table order. -/
def findTaskCheckRunList (find : TaskCheckRunFind) (db : List TaskCheckRun) :
    List TaskCheckRun :=
  db.filter (fun r => (whereClauses find).all (fun w => w r))

/-- Error codes of the `common` package used by `FindTaskCheckRunTx`. -/
inductive CommonCode
  | ENOTFOUND
  | ECONFLICT
  deriving DecidableEq

/-- `FindTaskCheckRunTx`: ENOTFOUND on zero matches, ECONFLICT on more than
one, otherwise the unique match. -/
def FindTaskCheckRunTx (find : TaskCheckRunFind) (db : List TaskCheckRun) :
    Except CommonCode TaskCheckRun :=
  match findTaskCheckRunList find db with
  | [] => .error CommonCode.ENOTFOUND
  | r :: rest => if rest.length > 0 then .error CommonCode.ECONFLICT else .ok r

/-- `CreateTaskCheckRunTx`: INSERT a new RUNNING row (creator is also the
updater, timestamps are set by the database and modelled as 0, `result`
takes its column default) and return it together with the new table. -/
def CreateTaskCheckRunTx (create : TaskCheckRunCreate) (st : Store) :
    TaskCheckRun × Store :=
  let run : TaskCheckRun :=
    { id := st.nextId
      creatorId := create.creatorId
      createdTs := 0
      updaterId := create.creatorId
      updatedTs := 0
      taskId := create.taskId
      name := create.name
      status := TaskCheckRunStatus.running
      type := create.type
      comment := create.comment
      result := ""
      payload := create.payload }
  (run, { runs := st.runs ++ [run], nextId := st.nextId + 1 })

/-- The filter that `CreateTaskCheckRunIfNeeded` builds: task id plus a
status list of RUNNING, extended with DONE when `skipIfAlreadyDone`.
The check type is NOT part of the filter. -/
def createTaskCheckRunFind (create : TaskCheckRunCreate) : TaskCheckRunFind :=
  { id := none
    taskId := some create.taskId
    statusList := some
      ([TaskCheckRunStatus.running] ++
        (if create.skipIfAlreadyDone then [TaskCheckRunStatus.done] else [])) }

/-- The result of the duplicate-detection query of
`CreateTaskCheckRunIfNeeded` on a given store. -/
def createMatchList (create : TaskCheckRunCreate) (st : Store) : List TaskCheckRun :=
  findTaskCheckRunList (createTaskCheckRunFind create) st.runs

/-- The DONE run that short-circuits `CreateTaskCheckRunIfNeeded` when
`skipIfAlreadyDone` is set: the first DONE row of the query result. -/
def createDoneHit (create : TaskCheckRunCreate) (st : Store) : Option TaskCheckRun :=
  if create.skipIfAlreadyDone then
    (createMatchList create st).find? (fun r => r.status == TaskCheckRunStatus.done)
  else none

/-- `CreateTaskCheckRunIfNeeded`. The returned triple is the resulting run,
the committed store state, and whether the duplicate-RUNNING warning was
logged. `none` models the Go panic on `taskCheckRunList[0]` when the list
is empty (provably unreachable). A return before the INSERT leaves the
store unchanged (the deferred rollback commits nothing). -/
def CreateTaskCheckRunIfNeeded (create : TaskCheckRunCreate) (st : Store) :
    Option (TaskCheckRun × Store × Bool) :=
  let list := createMatchList create st
  let doneHit := createDoneHit create st
  match doneHit with
  | some r => some (r, st, false)
  | none =>
    let runningCount := if create.skipIfAlreadyDone then
        (list.filter (fun r => r.status == TaskCheckRunStatus.running)).length
      else list.length
    if runningCount > 0 then
      match list with
      | r :: _ => some (r, st, runningCount > 1)
      | [] => none
    else
      let (run, st2) := CreateTaskCheckRunTx create st
      some (run, st2, false)

/-- The SET clause of `PatchTaskCheckRunStatusTx`: updater, status, comment
and result are overwritten, all other columns keep their values. -/
def applyStatusPatch (patch : TaskCheckRunStatusPatch) (r : TaskCheckRun) :
    TaskCheckRun :=
  { r with
    updaterId := patch.updaterId
    status := patch.status
    comment := patch.comment
    result := patch.result }

/-- The WHERE clause of `PatchTaskCheckRunStatusTx`: `1 = 1`, plus
`id = ?` when patch.ID is non-nil. -/
def patchMatches (patch : TaskCheckRunStatusPatch) (r : TaskCheckRun) : Bool :=
  match patch.id with
  | some i => r.id == i
  | none => true

/-- `PatchTaskCheckRunStatusTx`: UPDATE every row matched by the WHERE
clause, then scan the first RETURNING row; `none` in the first component
models the scan failure when no row was updated. The table state reflects
the UPDATE regardless, since rollback is the callers concern. -/
def PatchTaskCheckRunStatusTx (patch : TaskCheckRunStatusPatch) (st : Store) :
    Option TaskCheckRun × Store :=
  let runs := st.runs.map (fun r =>
    if patchMatches patch r then applyStatusPatch patch r else r)
  ((runs.filter (patchMatches patch)).head?, { st with runs := runs })

/-- `PatchTaskCheckRunStatus`: run the Tx variant in its own transaction;
on scan failure the transaction is rolled back, so the store is unchanged
and the caller sees an error (`none`). -/
def PatchTaskCheckRunStatus (patch : TaskCheckRunStatusPatch) (st : Store) :
    Option (TaskCheckRun × Store) :=
  match PatchTaskCheckRunStatusTx patch st with
  | (some r, st2) => some (r, st2)
  | (none, _) => none

/-- An operation of the task check registry, as exposed to callers:
deduplicated creation or a status patch. -/
inductive RegistryOp
  | create (c : TaskCheckRunCreate)
  | patch (p : TaskCheckRunStatusPatch)
  deriving DecidableEq

/-- Apply one registry operation to the store; a failed call (rolled-back
transaction) leaves the store unchanged. -/
def applyRegistryOp (st : Store) (op : RegistryOp) : Store :=
  match op with
  | RegistryOp.create c =>
    match CreateTaskCheckRunIfNeeded c st with
    | some (_, st2, _) => st2
    | none => st
  | RegistryOp.patch p =>
    match PatchTaskCheckRunStatus p st with
    | some (_, st2) => st2
    | none => st

/-- Run a sequence of registry operations. -/
def runRegistryOps (st : Store) (ops : List RegistryOp) : Store :=
  ops.foldl applyRegistryOp st

/-- Number of RUNNING rows of a given task. -/
def runningCountForTask (t : Nat) (runs : List TaskCheckRun) : Nat :=
  (runs.filter (fun r => r.taskId == t && r.status == TaskCheckRunStatus.running)).length

/-- Number of RUNNING rows of a given (task, check-type) pair. -/
def runningCountForPair (t : Nat) (ty : String) (runs : List TaskCheckRun) : Nat :=
  (runs.filter (fun r =>
    r.taskId == t && r.type == ty && r.status == TaskCheckRunStatus.running)).length

/-- The spec invariant: at most one RUNNING run per (task, check-type) pair. -/
def AtMostOneRunningPerPair (st : Store) : Prop :=
  ∀ t ty, runningCountForPair t ty st.runs ≤ 1

/-- The stronger invariant the code actually maintains: at most one RUNNING
run per task. -/
def AtMostOneRunningPerTask (st : Store) : Prop :=
  ∀ t, runningCountForTask t st.runs ≤ 1

/-- A store holds no RUNNING run at all. -/
def noRunningRun (st : Store) : Bool :=
  st.runs.all (fun r => !(r.status == TaskCheckRunStatus.running))

/-- A patch carries a completion status, i.e. does not set a row to RUNNING. -/
def opPatchesNonRunning (op : RegistryOp) : Bool :=
  match op with
  | RegistryOp.create _ => true
  | RegistryOp.patch p => !(p.status == TaskCheckRunStatus.running)

/-!
The SQL task executor (`server/task_executor_sql.go`). External
collaborators of `RunOnce` (JSON decoding, `db.ParseMigrationInfo`, the
driver) are bundled as oracle functions in `SqlExecEnv`; the side effects
RunOnce performs on the driver are exposed as an action trace.
-/

/-- db.MigrationType: Baseline, Migrate, and the generic Sql default. -/
inductive MigrationType
  | baseline
  | migrate
  | sql
  deriving DecidableEq

/-- db.MigrationInfo as used by the executor. -/
structure MigrationInfo where
  type : MigrationType
  version : String
  creator : String
  description : String
  deriving DecidableEq

/-- The added-file commit of a VCS push event. -/
structure FileCommit where
  added : String
  authorName : String
  deriving DecidableEq

/-- api.VCSPushEvent, reduced to the fields RunOnce reads. -/
structure VCSPushEvent where
  fileCommit : FileCommit
  deriving DecidableEq

/-- api.TaskDatabaseSchemaUpdatePayload. -/
structure TaskDatabaseSchemaUpdatePayload where
  statement : String
  vcsPushEvent : Option VCSPushEvent
  deriving DecidableEq

/-- Go `strings.TrimSpace`: drop leading and trailing whitespace (written
over the character list so that it evaluates inside the kernel). -/
def trimSpace (s : String) : String :=
  String.mk
    (((s.data.dropWhile Char.isWhitespace).reverse.dropWhile Char.isWhitespace).reverse)

/-- Go `filepath.Base` on slash-separated paths: empty input gives ".",
trailing slashes are stripped, everything up to the last slash is dropped,
and a path of only slashes gives "/". -/
def filepathBase (path : String) : String :=
  if path = "" then "."
  else
    let stripped := (path.data.reverse.dropWhile (fun c => c == '/')).reverse
    if stripped = [] then "/"
    else String.mk ((stripped.reverse.takeWhile (fun c => c != '/')).reverse)

/-- The distinct error outcomes of `SqlTaskExecutor.RunOnce`, one per
`return true, err` site. -/
inductive SqlTaskError
  | invalidPayload
  | migrationParseFailed (msg : String)
  | emptyStatement
  | composeFailed
  | connectFailed
  | setupCheckFailed
  | missingMigrationSchema
  | executeFailed
  | migrationFailed
  deriving DecidableEq

/-- An invocation RunOnce performs on the database driver. -/
inductive DriverAction
  | execute (sql : String)
  | executeMigration (mi : MigrationInfo) (sql : String)
  deriving DecidableEq

/-- The observable outcome of one RunOnce call: the `terminated` flag, the
returned error if any, and the driver invocations made. -/
structure RunOnceResult where
  terminated : Bool
  err : Option SqlTaskError
  actions : List DriverAction
  deriving DecidableEq

/-- The external collaborators of the SQL executor: JSON payload decoding,
`db.ParseMigrationInfo`, `ComposeTaskRelationship`, `db.Open`,
`NeedsSetupMigration`, and the two driver execution entry points. -/
structure SqlExecEnv where
  unmarshalPayload : String → Except String TaskDatabaseSchemaUpdatePayload
  parseMigrationInfo : String → Except String MigrationInfo
  composeResult : Except String Unit
  openResult : Except String Unit
  needsSetupMigration : Except String Bool
  executeResult : String → Except String Unit
  executeMigrationResult : MigrationInfo → String → Except String Unit

/-- Derivation of the MigrationInfo in RunOnce: default to kind Sql, and
when a VCS push event is present parse the base filename of the added file
and overwrite the creator with the commit author. -/
def deriveMigrationInfo (env : SqlExecEnv) (p : TaskDatabaseSchemaUpdatePayload) :
    Except String MigrationInfo :=
  match p.vcsPushEvent with
  | none =>
    .ok { type := MigrationType.sql, version := "", creator := "", description := "" }
  | some ev =>
    match env.parseMigrationInfo (filepathBase ev.fileCommit.added) with
    | .error e => .error e
    | .ok mi => .ok { mi with creator := ev.fileCommit.authorName }

/-- `SqlTaskExecutor.RunOnce` over a task payload string. -/
def SqlTaskExecutor.RunOnce (env : SqlExecEnv) (taskPayload : String) :
    RunOnceResult :=
  match env.unmarshalPayload taskPayload with
  | .error _ => ⟨true, some SqlTaskError.invalidPayload, []⟩
  | .ok payload =>
    match deriveMigrationInfo env payload with
    | .error e => ⟨true, some (SqlTaskError.migrationParseFailed e), []⟩
    | .ok mi =>
      let sql := trimSpace payload.statement
      if mi.type ≠ MigrationType.baseline ∧ sql = "" then
        ⟨true, some SqlTaskError.emptyStatement, []⟩
      else
        match env.composeResult with
        | .error _ => ⟨true, some SqlTaskError.composeFailed, []⟩
        | .ok _ =>
          match env.openResult with
          | .error _ => ⟨true, some SqlTaskError.connectFailed, []⟩
          | .ok _ =>
            match payload.vcsPushEvent with
            | none =>
              match env.executeResult sql with
              | .error _ => ⟨true, some SqlTaskError.executeFailed, [DriverAction.execute sql]⟩
              | .ok _ => ⟨true, none, [DriverAction.execute sql]⟩
            | some _ =>
              match env.needsSetupMigration with
              | .error _ => ⟨true, some SqlTaskError.setupCheckFailed, []⟩
              | .ok true => ⟨true, some SqlTaskError.missingMigrationSchema, []⟩
              | .ok false =>
                match env.executeMigrationResult mi sql with
                | .error _ =>
                  ⟨true, some SqlTaskError.migrationFailed, [DriverAction.executeMigration mi sql]⟩
                | .ok _ => ⟨true, none, [DriverAction.executeMigration mi sql]⟩

/-- The per-row predicate described by the spec for Find filters: the
conjunction of one predicate per non-nil filter field. -/
def specFindPredicate (find : TaskCheckRunFind) (r : TaskCheckRun) : Bool :=
  (match find.id with | some i => r.id == i | none => true) &&
  ((match find.taskId with | some t => r.taskId == t | none => true) &&
   (match find.statusList with | some sl => sl.contains r.status | none => true))

/-- C5: SqlTaskExecutor.RunOnce returns terminated=true on every input and
every outcome of its collaborators; no path requests a retry. -/
theorem c5_runOnce_always_terminated (env : SqlExecEnv) (tp : String) :
    (SqlTaskExecutor.RunOnce env tp).terminated = true := by
  simp only [SqlTaskExecutor.RunOnce]
  repeat' split <;> try rfl

/-- C10: FindTaskCheckRunTx returns ENOTFOUND exactly on zero matches,
ECONFLICT exactly on more than one match, and the unique match otherwise. -/
theorem c10_findTaskCheckRunTx_cardinality (find : TaskCheckRunFind)
    (db : List TaskCheckRun) :
    (FindTaskCheckRunTx find db = .error CommonCode.ENOTFOUND ↔
      findTaskCheckRunList find db = [])
    ∧ (FindTaskCheckRunTx find db = .error CommonCode.ECONFLICT ↔
      1 < (findTaskCheckRunList find db).length)
    ∧ (∀ r, FindTaskCheckRunTx find db = .ok r ↔
      findTaskCheckRunList find db = [r]) := by
  rcases hl : findTaskCheckRunList find db with _ | ⟨a, _ | ⟨b, tl⟩⟩ <;>
    simp [FindTaskCheckRunTx, hl]

/-- C8: findTaskCheckRunList returns exactly the rows satisfying the
conjunction of one predicate per non-nil field, and the all-nil filter
returns every row. -/
theorem c8_findTaskCheckRunList_conjunctive (find : TaskCheckRunFind)
    (db : List TaskCheckRun) :
    findTaskCheckRunList find db = db.filter (specFindPredicate find)
    ∧ findTaskCheckRunList ⟨none, none, none⟩ db = db := by
  constructor
  · apply List.filter_congr
    intro r _
    rcases find with ⟨fid, ftask, fsl⟩
    rcases fid <;> rcases ftask <;> rcases fsl <;>
      simp [whereClauses, specFindPredicate, Bool.and_assoc]
  · simp [findTaskCheckRunList, whereClauses]

/-- Filtering commutes with a map that never changes whether a row matches
the predicate. -/
theorem filter_map_comm_of_pred (l : List TaskCheckRun)
    (f : TaskCheckRun → TaskCheckRun) (p : TaskCheckRun → Bool)
    (hpf : ∀ r, p (f r) = p r) :
    (l.map f).filter p = (l.filter p).map f := by
  induction l with
  | nil => rfl
  | cons a tl ih =>
    cases ha : p a <;> simp [List.filter_cons, hpf, ha, ih]

/-- C9: with patch.ID nil the WHERE clause is `1 = 1`, so the write hits
every row of the table while only the first updated row is returned; with
patch.ID non-nil exactly the rows with that id are written and every other
row is unchanged. -/
theorem c9_patch_where_clause (patch : TaskCheckRunStatusPatch) (st : Store) :
    (patch.id = none →
      (PatchTaskCheckRunStatusTx patch st).2.runs = st.runs.map (applyStatusPatch patch)
      ∧ (PatchTaskCheckRunStatusTx patch st).1 =
          (st.runs.map (applyStatusPatch patch)).head?)
    ∧ (∀ i, patch.id = some i →
      (PatchTaskCheckRunStatusTx patch st).2.runs =
        st.runs.map (fun r => if r.id = i then applyStatusPatch patch r else r)) := by
  constructor
  · intro h
    rcases st with ⟨runs, nid⟩
    cases runs <;>
      simp [PatchTaskCheckRunStatusTx, patchMatches, h, Function.comp]
  · intro i h
    simp only [PatchTaskCheckRunStatusTx, patchMatches, h]
    apply List.map_congr_left
    intro r _
    by_cases hid : r.id = i <;> simp [hid]

/-- Concrete rows and store exercising the patch WHERE clause. -/
def c9Store : Store :=
  ⟨[⟨1, 1, 0, 1, 0, 7, "n1", TaskCheckRunStatus.running, "a", "", "", ""⟩,
    ⟨2, 1, 0, 1, 0, 8, "n2", TaskCheckRunStatus.running, "b", "", "", ""⟩], 3⟩

/-- A patch with nil ID. -/
def c9PatchAll : TaskCheckRunStatusPatch :=
  ⟨none, 9, TaskCheckRunStatus.done, "c", "r"⟩

/-- A patch addressing id 1. -/
def c9PatchOne : TaskCheckRunStatusPatch :=
  ⟨some 1, 9, TaskCheckRunStatus.failed, "c", "r"⟩

/-- Witness for C9 at a concrete two-row store, one patch of each shape. -/
theorem c9_patch_where_clause_witness :
    ((PatchTaskCheckRunStatusTx c9PatchAll c9Store).2.runs
        = c9Store.runs.map (applyStatusPatch c9PatchAll)
      ∧ (PatchTaskCheckRunStatusTx c9PatchAll c9Store).1
        = (c9Store.runs.map (applyStatusPatch c9PatchAll)).head?)
    ∧ (PatchTaskCheckRunStatusTx c9PatchOne c9Store).2.runs
        = c9Store.runs.map (fun r => if r.id = 1 then applyStatusPatch c9PatchOne r else r) :=
  ⟨(c9_patch_where_clause c9PatchAll c9Store).1 rfl,
   (c9_patch_where_clause c9PatchOne c9Store).2 1 rfl⟩

/-- A store holding one RUNNING check run of type "connect" for task 7. -/
def c2Store : Store :=
  ⟨[⟨1, 1, 0, 1, 0, 7, "connect-check", TaskCheckRunStatus.running, "connect", "", "", ""⟩], 2⟩

/-- A create request for task 7 with the different check type "advise". -/
def c2Create : TaskCheckRunCreate :=
  ⟨1, 7, "advise-check", "advise", "", "", false⟩

/-- C2 evaluated at the failing input: the duplicate-detection query of
CreateTaskCheckRunIfNeeded is keyed on the task id alone, so a RUNNING run
of a DIFFERENT check type is returned as the result and no run of the
requested type is inserted. -/
theorem c2_type_ignored_eval :
    CreateTaskCheckRunIfNeeded c2Create c2Store =
      some (⟨1, 1, 0, 1, 0, 7, "connect-check", TaskCheckRunStatus.running,
        "connect", "", "", ""⟩, c2Store, false)
    ∧ c2Create.type = "advise"
    ∧ "connect" ≠ "advise" := by
  refine ⟨by decide, rfl, by decide⟩

/-- A store with two DONE runs for task 7: first of type "b", then of
type "a". -/
def c3Store : Store :=
  ⟨[⟨1, 1, 0, 1, 0, 7, "nb", TaskCheckRunStatus.done, "b", "", "", ""⟩,
    ⟨2, 1, 0, 1, 0, 7, "na", TaskCheckRunStatus.done, "a", "", "", ""⟩], 3⟩

/-- A skipIfAlreadyDone create request for task 7 and check type "a". -/
def c3Create : TaskCheckRunCreate :=
  ⟨1, 7, "na", "a", "", "", true⟩

/-- C3 evaluated at the failing input: although a DONE run of the requested
type "a" exists (id 2), the skip branch returns the first DONE run of the
task regardless of type, here the type "b" run with id 1. -/
theorem c3_skip_wrong_type_eval :
    CreateTaskCheckRunIfNeeded c3Create c3Store =
      some (⟨1, 1, 0, 1, 0, 7, "nb", TaskCheckRunStatus.done, "b", "", "", ""⟩, c3Store, false)
    ∧ (⟨1, 1, 0, 1, 0, 7, "nb", TaskCheckRunStatus.done, "b", "", "", ""⟩ : TaskCheckRun).type
        ≠ c3Create.type := by
  refine ⟨by decide, by decide⟩

/-- A store for task 7 holding two RUNNING runs (types "a", "b") followed
by a DONE run (type "c"). -/
def c7Store : Store :=
  ⟨[⟨1, 1, 0, 1, 0, 7, "n1", TaskCheckRunStatus.running, "a", "", "", ""⟩,
    ⟨2, 1, 0, 1, 0, 7, "n2", TaskCheckRunStatus.running, "b", "", "", ""⟩,
    ⟨3, 1, 0, 1, 0, 7, "n3", TaskCheckRunStatus.done, "c", "", "", ""⟩], 4⟩

/-- A skipIfAlreadyDone create request for task 7. -/
def c7Create : TaskCheckRunCreate :=
  ⟨1, 7, "n4", "d", "", "", true⟩

/-- C7 counterexample: the query of CreateTaskCheckRunIfNeeded matches more
than one RUNNING run, yet the call returns the DONE run (not the first run
of the list) and the duplicate warning is NOT logged, because the
skipIfAlreadyDone short-circuit fires first. -/
theorem c7_counterexample :
    1 < ((createMatchList c7Create c7Store).filter
      (fun r => r.status == TaskCheckRunStatus.running)).length
    ∧ CreateTaskCheckRunIfNeeded c7Create c7Store =
        some (⟨3, 1, 0, 1, 0, 7, "n3", TaskCheckRunStatus.done, "c", "", "", ""⟩,
          c7Store, false)
    ∧ (createMatchList c7Create c7Store).head? ≠
        some ⟨3, 1, 0, 1, 0, 7, "n3", TaskCheckRunStatus.done, "c", "", "", ""⟩ := by
  refine ⟨by decide, by decide, by decide⟩

/-- C7 amended: when the query matches more than one RUNNING run, the call
always succeeds with the store unchanged; if no DONE short-circuit applies
the first run of the list is returned and the duplicate warning is logged,
while a DONE short-circuit returns that DONE run without a warning. -/
theorem c7_multiple_running_recovered (c : TaskCheckRunCreate) (st : Store)
    (hmulti : 1 < ((createMatchList c st).filter
      (fun r => r.status == TaskCheckRunStatus.running)).length) :
    (∀ d, createDoneHit c st = some d →
      CreateTaskCheckRunIfNeeded c st = some (d, st, false))
    ∧ (createDoneHit c st = none →
      ∃ r tl, createMatchList c st = r :: tl ∧
        CreateTaskCheckRunIfNeeded c st = some (r, st, true)) := by
  constructor
  · intro d hd
    simp [CreateTaskCheckRunIfNeeded, hd]
  · intro hd
    rcases hl : createMatchList c st with _ | ⟨r, tl⟩
    · rw [hl] at hmulti
      simp at hmulti
    · refine ⟨r, tl, rfl, ?_⟩
      have hcount : 1 <
          (if c.skipIfAlreadyDone then
            ((r :: tl).filter (fun x => x.status == TaskCheckRunStatus.running)).length
          else (r :: tl).length) := by
        rw [hl] at hmulti
        cases c.skipIfAlreadyDone
        · simpa using lt_of_lt_of_le hmulti (List.length_filter_le _ _)
        · simpa using hmulti
      simp only [CreateTaskCheckRunIfNeeded, hd, hl]
      rw [if_pos (by omega)]
      simp only [Option.some.injEq, Prod.mk.injEq, true_and, gt_iff_lt,
        decide_eq_true_eq]
      omega

/-- A store for task 7 holding two RUNNING runs and no DONE run. -/
def c7wStore : Store :=
  ⟨[⟨1, 1, 0, 1, 0, 7, "n1", TaskCheckRunStatus.running, "a", "", "", ""⟩,
    ⟨2, 1, 0, 1, 0, 7, "n2", TaskCheckRunStatus.running, "b", "", "", ""⟩], 3⟩

/-- A create request for task 7 without the skip flag. -/
def c7wCreate : TaskCheckRunCreate :=
  ⟨1, 7, "n4", "d", "", "", false⟩

/-- Witness for the amended C7: with two RUNNING matches and no DONE
short-circuit the first match is returned and the warning is logged. -/
theorem c7_multiple_running_recovered_witness :
    ∃ r tl, createMatchList c7wCreate c7wStore = r :: tl ∧
      CreateTaskCheckRunIfNeeded c7wCreate c7wStore = some (r, c7wStore, true) :=
  (c7_multiple_running_recovered c7wCreate c7wStore (by decide)).2 (by decide)

/-- C4: RunOnce rejects with the empty-statement error precisely when the
trimmed statement is empty and the derived migration kind is not Baseline;
without a VCS push event the kind defaults to Sql, so an empty statement is
then always rejected. -/
theorem c4_empty_statement_check (env : SqlExecEnv) (tp : String)
    (p : TaskDatabaseSchemaUpdatePayload) (mi : MigrationInfo)
    (hp : env.unmarshalPayload tp = Except.ok p)
    (hmi : deriveMigrationInfo env p = Except.ok mi) :
    ((SqlTaskExecutor.RunOnce env tp).err = some SqlTaskError.emptyStatement ↔
      (trimSpace p.statement = "" ∧ mi.type ≠ MigrationType.baseline))
    ∧ (p.vcsPushEvent = none → mi.type = MigrationType.sql)
    ∧ (p.vcsPushEvent = none → trimSpace p.statement = "" →
        (SqlTaskExecutor.RunOnce env tp).err = some SqlTaskError.emptyStatement) := by
  have hvs : p.vcsPushEvent = none → mi.type = MigrationType.sql := by
    intro hv
    have h2 := hmi
    simp only [deriveMigrationInfo, hv, Except.ok.injEq] at h2
    rw [← h2]
  have hiff : (SqlTaskExecutor.RunOnce env tp).err = some SqlTaskError.emptyStatement ↔
      (trimSpace p.statement = "" ∧ mi.type ≠ MigrationType.baseline) := by
    simp only [SqlTaskExecutor.RunOnce, hp, hmi]
    by_cases hc : (mi.type ≠ MigrationType.baseline ∧ trimSpace p.statement = "")
    · rw [if_pos hc]
      exact iff_of_true rfl ⟨hc.2, hc.1⟩
    · rw [if_neg hc]
      refine iff_of_false ?_ (fun h => hc ⟨h.2, h.1⟩)
      intro habs
      revert habs
      (repeat' split) <;> (intro habs; simp at habs)
  refine ⟨hiff, hvs, fun hv he => hiff.mpr ⟨he, ?_⟩⟩
  rw [hvs hv]
  decide

/-- A payload with an empty statement and no VCS artifact. -/
def c4Payload : TaskDatabaseSchemaUpdatePayload := ⟨"", none⟩

/-- An environment whose payload decoding yields `c4Payload`. -/
def c4Env : SqlExecEnv :=
  { unmarshalPayload := fun _ => Except.ok c4Payload
    parseMigrationInfo := fun _ => Except.error "unused"
    composeResult := Except.ok ()
    openResult := Except.ok ()
    needsSetupMigration := Except.ok false
    executeResult := fun _ => Except.ok ()
    executeMigrationResult := fun _ _ => Except.ok () }

/-- Witness for C4: an empty statement without a VCS artifact is rejected
with the empty-statement error. -/
theorem c4_empty_statement_check_witness :
    (SqlTaskExecutor.RunOnce c4Env "t").err = some SqlTaskError.emptyStatement :=
  (c4_empty_statement_check c4Env "t" c4Payload
    ⟨MigrationType.sql, "", "", ""⟩ rfl rfl).2.2 rfl rfl

/-- C6: with a VCS push event, RunOnce derives the MigrationInfo from the
base filename of the added file and stamps the commit author as creator; a
parse failure terminates with an error and no driver call, and a pending
migration-schema setup terminates with the missing-schema error without
invoking ExecuteMigration; on the success path ExecuteMigration receives
the author-stamped MigrationInfo. -/
theorem c6_vcs_migration_protocol (env : SqlExecEnv) (tp : String)
    (p : TaskDatabaseSchemaUpdatePayload) (ev : VCSPushEvent)
    (hp : env.unmarshalPayload tp = Except.ok p)
    (hv : p.vcsPushEvent = some ev) :
    (∀ e, env.parseMigrationInfo (filepathBase ev.fileCommit.added) = Except.error e →
      SqlTaskExecutor.RunOnce env tp =
        ⟨true, some (SqlTaskError.migrationParseFailed e), []⟩)
    ∧ (∀ mi, env.parseMigrationInfo (filepathBase ev.fileCommit.added) = Except.ok mi →
        ¬(mi.type ≠ MigrationType.baseline ∧ trimSpace p.statement = "") →
        env.composeResult = Except.ok () → env.openResult = Except.ok () →
        (env.needsSetupMigration = Except.ok true →
          SqlTaskExecutor.RunOnce env tp =
            ⟨true, some SqlTaskError.missingMigrationSchema, []⟩)
        ∧ (env.needsSetupMigration = Except.ok false →
          env.executeMigrationResult
            { mi with creator := ev.fileCommit.authorName } (trimSpace p.statement) = Except.ok () →
          SqlTaskExecutor.RunOnce env tp =
            ⟨true, none, [DriverAction.executeMigration
              { mi with creator := ev.fileCommit.authorName } (trimSpace p.statement)]⟩)) := by
  constructor
  · intro e he
    have hmi : deriveMigrationInfo env p = Except.error e := by
      simp only [deriveMigrationInfo, hv, he]
    simp only [SqlTaskExecutor.RunOnce, hp, hmi]
  · intro mi hok hne hcomp hopen
    have hmi : deriveMigrationInfo env p =
        Except.ok { mi with creator := ev.fileCommit.authorName } := by
      simp only [deriveMigrationInfo, hv, hok]
    constructor
    · intro hsetup
      simp only [SqlTaskExecutor.RunOnce, hp, hmi, hcomp, hopen, hv, hsetup]
      rw [if_neg hne]
    · intro hsetup hexec
      simp only [SqlTaskExecutor.RunOnce, hp, hmi, hcomp, hopen, hv, hsetup, hexec]
      rw [if_neg hne]

/-- The MigrationInfo returned by the parse oracle in the C6 witness. -/
def c6Mi : MigrationInfo := ⟨MigrationType.migrate, "v1", "x", "d"⟩

/-- A payload carrying a VCS push event for the C6 witness. -/
def c6Payload : TaskDatabaseSchemaUpdatePayload :=
  ⟨"create table t(a int)", some ⟨⟨"dir/v1__m.sql", "alice"⟩⟩⟩

/-- An environment whose instance still needs migration-schema setup. -/
def c6Env : SqlExecEnv :=
  { unmarshalPayload := fun _ => Except.ok c6Payload
    parseMigrationInfo := fun _ => Except.ok c6Mi
    composeResult := Except.ok ()
    openResult := Except.ok ()
    needsSetupMigration := Except.ok true
    executeResult := fun _ => Except.ok ()
    executeMigrationResult := fun _ _ => Except.ok () }

/-- Witness for C6: a VCS-backed task on an instance pending setup fails
with the missing-migration-schema error and performs no driver call. -/
theorem c6_vcs_migration_protocol_witness :
    SqlTaskExecutor.RunOnce c6Env "t" =
      ⟨true, some SqlTaskError.missingMigrationSchema, []⟩ :=
  ((c6_vcs_migration_protocol c6Env "t" c6Payload ⟨⟨"dir/v1__m.sql", "alice"⟩⟩
    rfl rfl).2 c6Mi rfl (by decide) rfl rfl).1 rfl

/-- Counting filtered elements is monotone in the predicate. -/
theorem filter_length_mono {α : Type} (l : List α) (p q : α → Bool)
    (h : ∀ a, p a = true → q a = true) :
    (l.filter p).length ≤ (l.filter q).length := by
  induction l with
  | nil => simp
  | cons a tl ih =>
    cases hp : p a
    · cases hq : q a <;> simp [List.filter_cons, hp, hq] <;> omega
    · have hq := h a hp
      simp [List.filter_cons, hp, hq]
      omega

/-- Mapping cannot increase the filtered count when the map never turns a
non-matching element into a matching one. -/
theorem filter_length_map_le {α : Type} (l : List α) (f : α → α) (p : α → Bool)
    (h : ∀ a, p (f a) = true → p a = true) :
    ((l.map f).filter p).length ≤ (l.filter p).length := by
  induction l with
  | nil => simp
  | cons a tl ih =>
    cases hp : p (f a)
    · cases hpa : p a <;> simp [List.filter_cons, hp, hpa] <;> omega
    · have hpa := h a hp
      simp [List.filter_cons, hp, hpa]
      omega

/-- The RUNNING rows among the create query matches are exactly the RUNNING
rows of the requested task, for either value of the skip flag. -/
theorem createMatchList_filter_running (c : TaskCheckRunCreate) (st : Store) :
    (createMatchList c st).filter (fun r => r.status == TaskCheckRunStatus.running) =
      st.runs.filter (fun r =>
        r.taskId == c.taskId && r.status == TaskCheckRunStatus.running) := by
  unfold createMatchList findTaskCheckRunList
  rw [List.filter_filter]
  apply List.filter_congr
  intro r _
  cases hsk : c.skipIfAlreadyDone <;> cases hst : r.status <;>
    cases htid : (r.taskId == c.taskId) <;>
      simp [whereClauses, createTaskCheckRunFind, hsk, hst, htid]

/-- Characterization of the store state after `CreateTaskCheckRunIfNeeded`:
either the store is unchanged (a DONE or RUNNING hit), or the requested
task had no RUNNING run at all and exactly the new RUNNING row was
inserted. -/
theorem createIfNeeded_state_cases (c : TaskCheckRunCreate) (st : Store) :
    (∃ r w, CreateTaskCheckRunIfNeeded c st = some (r, st, w))
    ∨ (runningCountForTask c.taskId st.runs = 0 ∧
        CreateTaskCheckRunIfNeeded c st =
          some ((CreateTaskCheckRunTx c st).1, (CreateTaskCheckRunTx c st).2, false)) := by
  have hrun : runningCountForTask c.taskId st.runs =
      ((createMatchList c st).filter
        (fun r => r.status == TaskCheckRunStatus.running)).length := by
    rw [createMatchList_filter_running]
    rfl
  unfold CreateTaskCheckRunIfNeeded
  rcases hd : createDoneHit c st with _ | r
  · obtain ⟨L, hL⟩ : ∃ L, createMatchList c st = L := ⟨_, rfl⟩
    rw [hL] at hrun ⊢
    dsimp only
    rcases L with _ | ⟨a, tl⟩
    · right
      refine ⟨by simpa using hrun, ?_⟩
      simp
    · rcases hsk : c.skipIfAlreadyDone
      · left
        refine ⟨a, decide ((a :: tl).length > 1), ?_⟩
        simp only [hsk, Bool.false_eq_true, if_false]
        rw [if_pos (show (a :: tl).length > 0 by simp)]
      · by_cases hrc :
            ((a :: tl).filter (fun r => r.status == TaskCheckRunStatus.running)).length > 0
        · left
          refine ⟨a, decide (((a :: tl).filter
            (fun r => r.status == TaskCheckRunStatus.running)).length > 1), ?_⟩
          simp only [hsk, if_true]
          rw [if_pos hrc]
        · right
          refine ⟨by rw [hrun]; omega, ?_⟩
          simp only [hsk, if_true]
          rw [if_neg hrc]
  · left
    exact ⟨r, false, rfl⟩

/-- A store without RUNNING rows satisfies the per-task invariant. -/
theorem atMostOne_of_noRunning (st : Store) (h : noRunningRun st = true) :
    AtMostOneRunningPerTask st := by
  intro t
  rw [runningCountForTask]
  have hnil : st.runs.filter
      (fun r => r.taskId == t && r.status == TaskCheckRunStatus.running) = [] := by
    rw [List.filter_eq_nil_iff]
    intro r hr
    rw [noRunningRun, List.all_eq_true] at h
    have h2 := h r hr
    simp only [Bool.not_eq_true', beq_eq_false_iff_ne, ne_eq] at h2
    simp only [Bool.and_eq_true, beq_iff_eq, not_and]
    intro _
    exact h2
  rw [hnil]
  simp

/-- The table after an INSERT is the old table plus the new row. -/
theorem createTx_runs (c : TaskCheckRunCreate) (st : Store) :
    (CreateTaskCheckRunTx c st).2.runs = st.runs ++ [(CreateTaskCheckRunTx c st).1] := rfl

/-- `CreateTaskCheckRunIfNeeded` preserves at most one RUNNING per task. -/
theorem create_preserves_invariant (c : TaskCheckRunCreate) (st : Store)
    (h : AtMostOneRunningPerTask st) :
    AtMostOneRunningPerTask (applyRegistryOp st (RegistryOp.create c)) := by
  rcases createIfNeeded_state_cases c st with ⟨r, w, heq⟩ | ⟨hzero, heq⟩
  · simpa [applyRegistryOp, heq] using h
  · simp only [applyRegistryOp, heq]
    intro t
    rw [runningCountForTask, createTx_runs, List.filter_append, List.length_append]
    by_cases ht : t = c.taskId
    · subst ht
      rw [runningCountForTask] at hzero
      rw [hzero]
      have hnew : ((CreateTaskCheckRunTx c st).1.taskId == c.taskId &&
          (CreateTaskCheckRunTx c st).1.status == TaskCheckRunStatus.running) = true := by
        have h1 : (CreateTaskCheckRunTx c st).1.taskId = c.taskId := rfl
        have h2 : (CreateTaskCheckRunTx c st).1.status = TaskCheckRunStatus.running := rfl
        rw [h1, h2]
        simp
      simp [List.filter_cons, hnew]
    · have hne : ((CreateTaskCheckRunTx c st).1.taskId == t) = false := by
        have h1 : (CreateTaskCheckRunTx c st).1.taskId = c.taskId := rfl
        rw [h1]
        exact beq_false_of_ne (fun hh => ht hh.symm)
      have hone : (([(CreateTaskCheckRunTx c st).1]).filter
          (fun r => r.taskId == t && r.status == TaskCheckRunStatus.running)).length = 0 := by
        simp [List.filter_cons, hne]
      rw [hone]
      have hle := h t
      rw [runningCountForTask] at hle
      omega

/-- `PatchTaskCheckRunStatusTx` with a non-RUNNING status preserves at most
one RUNNING per task. -/
theorem patchTx_preserves_invariant (p : TaskCheckRunStatusPatch)
    (hs : p.status ≠ TaskCheckRunStatus.running) (st : Store)
    (h : AtMostOneRunningPerTask st) :
    AtMostOneRunningPerTask (PatchTaskCheckRunStatusTx p st).2 := by
  intro t
  have hruns : (PatchTaskCheckRunStatusTx p st).2.runs =
      st.runs.map (fun r => if patchMatches p r then applyStatusPatch p r else r) := rfl
  rw [runningCountForTask, hruns]
  have himp : ∀ r : TaskCheckRun,
      ((fun x => x.taskId == t && x.status == TaskCheckRunStatus.running)
        ((fun r => if patchMatches p r then applyStatusPatch p r else r) r)) = true →
      ((fun x => x.taskId == t && x.status == TaskCheckRunStatus.running) r) = true := by
    intro r hr
    by_cases hm : patchMatches p r = true
    · simp only [hm, if_true, if_pos] at hr
      have h1 : (applyStatusPatch p r).taskId = r.taskId := rfl
      have h2 : (applyStatusPatch p r).status = p.status := rfl
      simp only [h1, h2, Bool.and_eq_true, beq_iff_eq] at hr
      exact absurd hr.2 hs
    · simp only [Bool.not_eq_true] at hm
      simp only [hm, Bool.false_eq_true, if_false] at hr
      exact hr
  exact le_trans (filter_length_map_le st.runs _ _ himp) (h t)

/-- The public patch operation preserves at most one RUNNING per task when
the patch carries a non-RUNNING status. -/
theorem patch_preserves_invariant (p : TaskCheckRunStatusPatch)
    (hs : p.status ≠ TaskCheckRunStatus.running) (st : Store)
    (h : AtMostOneRunningPerTask st) :
    AtMostOneRunningPerTask (applyRegistryOp st (RegistryOp.patch p)) := by
  unfold applyRegistryOp PatchTaskCheckRunStatus
  dsimp only
  rcases hres : PatchTaskCheckRunStatusTx p st with ⟨opt, st2⟩
  rcases opt with _ | r
  · simpa using h
  · have h2 := patchTx_preserves_invariant p hs st h
    rw [hres] at h2
    simpa using h2

/-- Any single registry operation with a completion-status patch preserves
the per-task invariant. -/
theorem applyRegistryOp_preserves (st : Store) (op : RegistryOp)
    (hop : opPatchesNonRunning op = true)
    (h : AtMostOneRunningPerTask st) :
    AtMostOneRunningPerTask (applyRegistryOp st op) := by
  cases op with
  | create c => exact create_preserves_invariant c st h
  | patch p =>
    simp only [opPatchesNonRunning, Bool.not_eq_true', beq_eq_false_iff_ne,
      ne_eq] at hop
    exact patch_preserves_invariant p hop st h

/-- Sequences of registry operations preserve the per-task invariant. -/
theorem runRegistryOps_preserves (ops : List RegistryOp) :
    ∀ st : Store, AtMostOneRunningPerTask st →
      (∀ op ∈ ops, opPatchesNonRunning op = true) →
      AtMostOneRunningPerTask (runRegistryOps st ops) := by
  induction ops with
  | nil =>
    intro st h _
    simpa [runRegistryOps] using h
  | cons op tl ih =>
    intro st h hops
    have h1 := applyRegistryOp_preserves st op (hops op (by simp)) h
    have h2 := ih (applyRegistryOp st op) h1 (fun o ho => hops o (by simp [ho]))
    simpa [runRegistryOps, List.foldl_cons] using h2

/-- Per-pair RUNNING counts are bounded by per-task RUNNING counts. -/
theorem pair_count_le_task_count (t : Nat) (ty : String) (runs : List TaskCheckRun) :
    runningCountForPair t ty runs ≤ runningCountForTask t runs := by
  apply filter_length_mono
  intro r hr
  simp only [Bool.and_eq_true] at hr ⊢
  exact ⟨hr.1.1, hr.2⟩

/-- C1 counterexample: starting from an empty store, four registry calls
(create a lint check for task 1, patch run 1 to DONE, create again, patch
run 1 back to RUNNING) leave TWO RUNNING TaskCheckRuns for the pair
(task 1, type lint): with arbitrary status patches admitted, the invariant
as claimed is violated. -/
theorem c1_counterexample :
    noRunningRun ⟨[], 1⟩ = true ∧
    ¬ AtMostOneRunningPerPair (runRegistryOps ⟨[], 1⟩
      [RegistryOp.create ⟨1, 1, "lint-check", "lint", "", "", false⟩,
       RegistryOp.patch ⟨some 1, 1, TaskCheckRunStatus.done, "", ""⟩,
       RegistryOp.create ⟨1, 1, "lint-check", "lint", "", "", false⟩,
       RegistryOp.patch ⟨some 1, 1, TaskCheckRunStatus.running, "", ""⟩]) := by
  refine ⟨by decide, fun h => ?_⟩
  have h2 := h 1 "lint"
  revert h2
  decide

/-- C1 amended: starting from a store with no RUNNING run, any sequence of
CreateTaskCheckRunIfNeeded and PatchTaskCheckRunStatus calls in which every
patch carries a non-RUNNING (completion) status maintains at most one
RUNNING TaskCheckRun per (task, check-type) pair. -/
theorem c1_running_invariant_amended (init : Store) (ops : List RegistryOp)
    (h0 : noRunningRun init = true)
    (hops : ∀ op ∈ ops, opPatchesNonRunning op = true) :
    AtMostOneRunningPerPair (runRegistryOps init ops) := by
  intro t ty
  exact le_trans (pair_count_le_task_count t ty _)
    (runRegistryOps_preserves ops init (atMostOne_of_noRunning init h0) hops t)

/-- Witness for the amended C1 at a concrete create/patch sequence. -/
theorem c1_running_invariant_amended_witness :
    AtMostOneRunningPerPair (runRegistryOps ⟨[], 1⟩
      [RegistryOp.create ⟨1, 1, "lint-check", "lint", "", "", false⟩,
       RegistryOp.patch ⟨some 1, 1, TaskCheckRunStatus.done, "", ""⟩,
       RegistryOp.create ⟨1, 1, "lint-check", "lint", "", "", false⟩]) :=
  c1_running_invariant_amended ⟨[], 1⟩ _ (by decide) (by decide)
